import Mathlib

/-
Verification of the perception orchestration pipeline in
easy_perception_deployment/include/epd_utils_lib/processor.hpp.

The file shallowly embeds the two ROS2 callbacks of the Processor class
(image_callback and localize_callback), the publish-site formatting loops,
and the route selection performed by the constructor.  The EPDContainer
state object (epd_container.hpp, not part of the provided sources) is
modelled from the specification of Session State.  Inference sessions are
modelled as a record of fallible functions (Except), since the callbacks
treat them as opaque capabilities whose exceptions propagate.
-/

/-- Decoded ROS sensor_msgs Image: width, height and an opaque pixel
buffer. -/
structure RosImage where
  width : Nat
  height : Nat
  data : List Int
deriving DecidableEq

/-- In-memory cv Mat produced by cv_bridge toCvCopy: rows, cols, pixels. -/
structure CvMat where
  rows : Nat
  cols : Nat
  data : List Int
deriving DecidableEq

/-- cv_bridge toCvCopy conversion: cols is the image width, rows is the
image height (processor.hpp lines 262-263, 171-176). -/
def toCvCopy (msg : RosImage) : CvMat :=
  { rows := msg.height, cols := msg.width, data := msg.data }

/-- cv_bridge CvImage(...).toImageMsg conversion back to a ROS image
(processor.hpp lines 301-302, 348-349). -/
def toImageMsg (m : CvMat) : RosImage :=
  { width := m.cols, height := m.rows, data := m.data }

/-- Camera calibration record (sensor_msgs CameraInfo), opaque here. -/
structure CameraInfo where
  k : List Int
deriving DecidableEq

/-- sensor_msgs RegionOfInterest message fields written by the formatting
loops. -/
structure RegionOfInterest where
  x_offset : Int
  y_offset : Int
  width : Int
  height : Int
  do_rectify : Bool
deriving DecidableEq

/-- Raw bounding box of one detection as indexed in the source:
index 0 is x1, 1 is y1, 2 is x2, 3 is y2 (corner encoding). -/
structure RawBox where
  x1 : Int
  y1 : Int
  x2 : Int
  y2 : Int
deriving DecidableEq

/-- Raw tier 2 / tier 3 inference result (EPD::EPDObjectDetection from the
ort library): a detection count and parallel arrays. -/
structure EPDObjectDetectionResult where
  data_size : Nat
  classIndices : List Nat
  scores : List Int
  bboxes : List RawBox
  masks : List CvMat
deriving DecidableEq

/-- 3D position of a localized object, opaque to the orchestrator. -/
structure Point3 where
  x : Int
  y : Int
  z : Int
deriving DecidableEq

/-- One localized object of the localization inference result, with the
same fields the callback copies into the outgoing message. -/
structure LocalizedObject where
  name : String
  pos : Point3
  roi : RegionOfInterest
  breadth : Int
  length : Int
  height : Int
deriving DecidableEq

/-- Default object used to express indexed access in the formatting loop. -/
def dfltLocalizedObject : LocalizedObject :=
  { name := "", pos := ⟨0, 0, 0⟩, roi := ⟨0, 0, 0, 0, false⟩
  , breadth := 0, length := 0, height := 0 }

/-- Raw localization inference result (EPD::EPDObjectLocalization). -/
structure EPDObjectLocalizationResult where
  data_size : Nat
  objects : List LocalizedObject
deriving DecidableEq

/-- Outgoing EPDImageClassification message (tier 1 output). -/
structure EPDImageClassificationMsg where
  object_names : List String
deriving DecidableEq

/-- Outgoing EPDObjectDetection message (tier 2 and tier 3 output). -/
structure EPDObjectDetectionMsg where
  class_indices : List Nat
  scores : List Int
  bboxes : List RegionOfInterest
  masks : List RosImage
deriving DecidableEq

/-- Outgoing EPDObjectLocalization message (localization output). -/
structure EPDObjectLocalizationMsg where
  frame_width : Nat
  frame_height : Nat
  depth_image : RosImage
  camera_info : CameraInfo
  num_objects : Nat
  objects : List LocalizedObject
  roi_array : List RegionOfInterest
  process_time : Nat
deriving DecidableEq

/-- Modelled from the spec: the EPDContainer Session State object
(epd_container.hpp is not under src/, only its call sites in
processor.hpp are).  Fields follow spec section 3: an initialized flag,
the locked frame dimensions, the configured precision tier, the
visualization flag and the use-case mode.  The engineConstructions
counter instruments the one-time engine construction performed by
initORTSessionHandler, so that the exactly-once property is statable. -/
structure EPDContainer where
  onlyVisualize : Bool
  isInitialized : Bool
  frame_width : Nat
  frame_height : Nat
  precision_level : Nat
  useCaseMode : Nat
  engineConstructions : Nat
deriving DecidableEq

/-- Modelled from the spec: EPDContainer isInit accessor. -/
def isInit (c : EPDContainer) : Bool := c.isInitialized

/-- Modelled from the spec: EPDContainer isVisualize accessor. -/
def isVisualize (c : EPDContainer) : Bool := c.onlyVisualize

/-- Modelled from the spec: EPDContainer getWidth accessor (locked frame
width). -/
def getWidth (c : EPDContainer) : Nat := c.frame_width

/-- Modelled from the spec: EPDContainer getHeight accessor (locked frame
height). -/
def getHeight (c : EPDContainer) : Nat := c.frame_height

/-- Modelled from the spec: EPDContainer setFrameDimension, locking the
frame dimensions from the first observed frame. -/
def setFrameDimension (c : EPDContainer) (cols rows : Nat) : EPDContainer :=
  { c with frame_width := cols, frame_height := rows }

/-- Modelled from the spec: EPDContainer initORTSessionHandler performs
the one-time engine construction; the instrumentation counter records
each construction. -/
def initORTSessionHandler (c : EPDContainer) : EPDContainer :=
  { c with engineConstructions := c.engineConstructions + 1 }

/-- Modelled from the spec: EPDContainer setInitBoolean accessor. -/
def setInitBoolean (c : EPDContainer) (b : Bool) : EPDContainer :=
  { c with isInitialized := b }

/-- The inference capabilities reached through the container session
pointers, as fallible functions: an error value models a thrown engine
exception, which the callbacks never catch.  The p3 session exposes both
the single-image overloads and the image+depth+calibration overloads used
by the localization route. -/
structure Engine (E : Type) where
  p1_infer : CvMat → Except E (List String)
  p2_infer_visualize : CvMat → Except E CvMat
  p2_infer_action : CvMat → Except E EPDObjectDetectionResult
  p3_infer_visualize : CvMat → Except E CvMat
  p3_infer_action : CvMat → Except E EPDObjectDetectionResult
  p3_infer_visualize_loc : CvMat → CvMat → CameraInfo → Except E CvMat
  p3_infer_action_loc : CvMat → CvMat → CameraInfo →
    Except E EPDObjectLocalizationResult

/-- One publish on one of the five outbound channels of the Processor
node: visual_pub, p1_pub, p2_pub, p3_pub, localize_pub. -/
inductive Output where
  | visual : RosImage → Output
  | p1 : EPDImageClassificationMsg → Output
  | p2 : EPDObjectDetectionMsg → Output
  | p3 : EPDObjectDetectionMsg → Output
  | localize : EPDObjectLocalizationMsg → Output
deriving DecidableEq

/-- Observable outcome of one callback invocation: normal return with the
list of publishes it performed, the thrown dimension-change runtime
error, or a propagated engine exception (in which case nothing was
published, since every publish in the source follows its inference
call). -/
inductive CbOutcome (E : Type) where
  | ok : List Output → CbOutcome E
  | fatalDimChange : CbOutcome E
  | engineError : E → CbOutcome E
deriving DecidableEq

/-- Box message built inside the tier 2 / tier 3 formatting loops
(processor.hpp lines 312-317 and 340-345): offsets are the first corner,
extents are corner differences, do_rectify is false. -/
def mkRoi (b : RawBox) : RegionOfInterest :=
  { x_offset := b.x1
  , y_offset := b.y1
  , width := b.x2 - b.x1
  , height := b.y2 - b.y1
  , do_rectify := false }

/-- Tier 2 structured formatting loop (processor.hpp lines 305-319): one
class index, score and box pushed per detection index below data_size. -/
def formatP2Msg (res : EPDObjectDetectionResult) : EPDObjectDetectionMsg :=
  { class_indices := (List.range res.data_size).map
      (fun i => res.classIndices.getD i 0)
  , scores := (List.range res.data_size).map (fun i => res.scores.getD i 0)
  , bboxes := (List.range res.data_size).map
      (fun i => mkRoi (res.bboxes.getD i ⟨0, 0, 0, 0⟩))
  , masks := [] }

/-- Tier 3 structured formatting loop (processor.hpp lines 333-351): as
tier 2 plus one mask per detection, converted to an image message. -/
def formatP3Msg (res : EPDObjectDetectionResult) : EPDObjectDetectionMsg :=
  { class_indices := (List.range res.data_size).map
      (fun i => res.classIndices.getD i 0)
  , scores := (List.range res.data_size).map (fun i => res.scores.getD i 0)
  , bboxes := (List.range res.data_size).map
      (fun i => mkRoi (res.bboxes.getD i ⟨0, 0, 0, 0⟩))
  , masks := (List.range res.data_size).map
      (fun i => toImageMsg (res.masks.getD i ⟨0, 0, []⟩)) }

/-- Field-by-field copy of one localized object into the outgoing
LocalizedObject message (processor.hpp lines 226-233). -/
def copyLocalizedObject (o : LocalizedObject) : LocalizedObject :=
  { name := o.name, pos := o.pos, roi := o.roi
  , breadth := o.breadth, length := o.length, height := o.height }

/-- Localization structured formatting (processor.hpp lines 214-242):
frame dimensions from the converted image, the depth message and
calibration embedded verbatim, the object count, the per-object list and
parallel roi_array, and the measured elapsed milliseconds. -/
def formatLocalizationMsg (img : CvMat) (depth_msg : RosImage)
    (camera_info : CameraInfo) (res : EPDObjectLocalizationResult)
    (elapsedMs : Nat) : EPDObjectLocalizationMsg :=
  { frame_width := img.cols
  , frame_height := img.rows
  , depth_image := depth_msg
  , camera_info := camera_info
  , num_objects := res.data_size
  , objects := (List.range res.data_size).map
      (fun i => copyLocalizedObject (res.objects.getD i dfltLocalizedObject))
  , roi_array := (List.range res.data_size).map
      (fun i => (res.objects.getD i dfltLocalizedObject).roi)
  , process_time := elapsedMs }

/-- The switch over precision_level in image_callback (processor.hpp
lines 285-357), written as the equivalent if chain.  Each case invokes
its inference capability and publishes exactly one message on success; a
precision level outside 1..3 matches no case and nothing is published. -/
def image_dispatch {E : Type} (eng : Engine E) (c : EPDContainer)
    (img : CvMat) : CbOutcome E :=
  if c.precision_level = 1 then
    match eng.p1_infer img with
    | Except.error e => CbOutcome.engineError e
    | Except.ok labels =>
        CbOutcome.ok [Output.p1 { object_names := labels }]
  else if c.precision_level = 2 then
    if isVisualize c then
      match eng.p2_infer_visualize img with
      | Except.error e => CbOutcome.engineError e
      | Except.ok resultImg =>
          CbOutcome.ok [Output.visual (toImageMsg resultImg)]
    else
      match eng.p2_infer_action img with
      | Except.error e => CbOutcome.engineError e
      | Except.ok res => CbOutcome.ok [Output.p2 (formatP2Msg res)]
  else if c.precision_level = 3 then
    if isVisualize c then
      match eng.p3_infer_visualize img with
      | Except.error e => CbOutcome.engineError e
      | Except.ok resultImg =>
          CbOutcome.ok [Output.visual (toImageMsg resultImg)]
    else
      match eng.p3_infer_action img with
      | Except.error e => CbOutcome.engineError e
      | Except.ok res => CbOutcome.ok [Output.p3 (formatP3Msg res)]
  else
    CbOutcome.ok []

/-- Processor image_callback (processor.hpp lines 248-363): empty-frame
guard, one-time initialization or the dimension check (which throws only
when the stored width differs from cols AND the stored height differs
from rows), then the precision switch. -/
def image_callback {E : Type} (eng : Engine E) (c : EPDContainer)
    (msg : RosImage) : EPDContainer × CbOutcome E :=
  if msg.height = 0 then
    (c, CbOutcome.ok [])
  else
    let img := toCvCopy msg
    if isInit c = false then
      let c1 := setFrameDimension c img.cols img.rows
      let c2 := initORTSessionHandler c1
      let c3 := setInitBoolean c2 true
      (c3, image_dispatch eng c3 img)
    else
      if getWidth c ≠ img.cols ∧ getHeight c ≠ img.rows then
        (c, CbOutcome.fatalDimChange)
      else
        (c, image_dispatch eng c img)

/-- The mode branch of localize_callback (processor.hpp lines 196-245):
visualize publishes one annotated image, otherwise one localization
record is built and published; no branch reads precision_level. -/
def localize_dispatch {E : Type} (eng : Engine E) (c : EPDContainer)
    (img depth_img : CvMat) (depth_msg : RosImage)
    (camera_info : CameraInfo) (elapsedMs : Nat) : CbOutcome E :=
  if isVisualize c then
    match eng.p3_infer_visualize_loc img depth_img camera_info with
    | Except.error e => CbOutcome.engineError e
    | Except.ok resultImg =>
        CbOutcome.ok [Output.visual (toImageMsg resultImg)]
  else
    match eng.p3_infer_action_loc img depth_img camera_info with
    | Except.error e => CbOutcome.engineError e
    | Except.ok res =>
        CbOutcome.ok [Output.localize
          (formatLocalizationMsg img depth_msg camera_info res elapsedMs)]

/-- Processor localize_callback (processor.hpp lines 156-246): the same
empty-frame guard and initialization protocol as image_callback (on the
primary image), then the localization dispatch with depth and
calibration. -/
def localize_callback {E : Type} (eng : Engine E) (c : EPDContainer)
    (msg depth_msg : RosImage) (camera_info : CameraInfo)
    (elapsedMs : Nat) : EPDContainer × CbOutcome E :=
  if msg.height = 0 then
    (c, CbOutcome.ok [])
  else
    let img := toCvCopy msg
    let depth_img := toCvCopy depth_msg
    if isInit c = false then
      let c1 := setFrameDimension c img.cols img.rows
      let c2 := initORTSessionHandler c1
      let c3 := setInitBoolean c2 true
      (c3, localize_dispatch eng c3 img depth_img depth_msg camera_info
        elapsedMs)
    else
      if getWidth c ≠ img.cols ∧ getHeight c ≠ img.rows then
        (c, CbOutcome.fatalDimChange)
      else
        (c, localize_dispatch eng c img depth_img depth_msg camera_info
          elapsedMs)

/-- Intake routes activated by the Processor constructor (processor.hpp
lines 112-151): the single-stream subscription image_sub is created
unconditionally; the three synchronized subscriptions and the
synchronizer callback are activated exactly when useCaseMode equals 3
(Localization).  First component: single-stream route active; second:
synchronized multi-stream route active. -/
def routesActive (useCaseMode : Nat) : Bool × Bool :=
  (true, useCaseMode == 3)

/-- Example frame of 640 by 480 used as a concrete input. -/
def msgA : RosImage := { width := 640, height := 480, data := [1, 2, 3] }

/-- Example empty frame (height zero). -/
def msg0 : RosImage := { width := 640, height := 0, data := [] }

/-- Example frame where only the width differs from the locked 640 by
480 dimensions. -/
def msgW : RosImage := { width := 320, height := 480, data := [4] }

/-- Example frame where both dimensions differ from the locked 640 by
480 dimensions. -/
def msgWH : RosImage := { width := 320, height := 240, data := [5] }

/-- Example depth frame. -/
def depthA : RosImage := { width := 640, height := 480, data := [7] }

/-- Example calibration record. -/
def ciA : CameraInfo := { k := [525] }

/-- Example detection result with two detections. -/
def resA : EPDObjectDetectionResult :=
  { data_size := 2
  , classIndices := [5, 9]
  , scores := [90, 80]
  , bboxes := [⟨10, 20, 50, 80⟩, ⟨0, 0, 4, 4⟩]
  , masks := [⟨2, 2, [1]⟩, ⟨3, 3, [2]⟩] }

/-- Example localization result with one object. -/
def locResA : EPDObjectLocalizationResult :=
  { data_size := 1
  , objects := [{ name := "box", pos := ⟨1, 2, 3⟩
                , roi := ⟨10, 20, 40, 60, false⟩
                , breadth := 5, length := 6, height := 7 }] }

/-- Engine whose every capability succeeds with fixed data. -/
def engConst : Engine Nat :=
  { p1_infer := fun _ => Except.ok ["bottle"]
  , p2_infer_visualize := fun im => Except.ok im
  , p2_infer_action := fun _ => Except.ok resA
  , p3_infer_visualize := fun im => Except.ok im
  , p3_infer_action := fun _ => Except.ok resA
  , p3_infer_visualize_loc := fun im _ _ => Except.ok im
  , p3_infer_action_loc := fun _ _ _ => Except.ok locResA }

/-- Engine whose every capability fails with the error value 42. -/
def engFail : Engine Nat :=
  { p1_infer := fun _ => Except.error 42
  , p2_infer_visualize := fun _ => Except.error 42
  , p2_infer_action := fun _ => Except.error 42
  , p3_infer_visualize := fun _ => Except.error 42
  , p3_infer_action := fun _ => Except.error 42
  , p3_infer_visualize_loc := fun _ _ _ => Except.error 42
  , p3_infer_action_loc := fun _ _ _ => Except.error 42 }

/-- Fresh (uninitialized) container at tier 2, non-visualize. -/
def cFresh : EPDContainer :=
  { onlyVisualize := false, isInitialized := false
  , frame_width := 0, frame_height := 0
  , precision_level := 2, useCaseMode := 3, engineConstructions := 0 }

/-- Initialized container locked at 640 by 480, tier 1. -/
def cT1 : EPDContainer :=
  { onlyVisualize := false, isInitialized := true
  , frame_width := 640, frame_height := 480
  , precision_level := 1, useCaseMode := 0, engineConstructions := 1 }

/-- Initialized container locked at 640 by 480, tier 3, non-visualize. -/
def cT3 : EPDContainer :=
  { onlyVisualize := false, isInitialized := true
  , frame_width := 640, frame_height := 480
  , precision_level := 3, useCaseMode := 0, engineConstructions := 1 }

/-- Initialized container locked at 640 by 480, tier 7 (outside 1..3). -/
def cT7 : EPDContainer :=
  { onlyVisualize := false, isInitialized := true
  , frame_width := 640, frame_height := 480
  , precision_level := 7, useCaseMode := 0, engineConstructions := 1 }

/-- Reduction of image_callback for a nonempty frame against an
initialized container whose locked width matches the frame width: the
fatal test (which requires both dimensions to differ) fails, so the
callback dispatches on the unchanged container. -/
theorem image_callback_init_eq {E : Type} (eng : Engine E)
    (c : EPDContainer) (msg : RosImage) (h0 : msg.height ≠ 0)
    (hi : isInit c = true) (hw : getWidth c = msg.width) :
    image_callback eng c msg = (c, image_dispatch eng c (toCvCopy msg)) := by
  simp [image_callback, h0, hi, hw, toCvCopy]

/-- Reduction of image_callback for a nonempty first frame: the
container is initialized from the frame dimensions and then dispatched. -/
theorem image_callback_fresh_eq {E : Type} (eng : Engine E)
    (c : EPDContainer) (msg : RosImage) (h0 : msg.height ≠ 0)
    (hni : isInit c = false) :
    image_callback eng c msg =
      (setInitBoolean (initORTSessionHandler
          (setFrameDimension c msg.width msg.height)) true,
        image_dispatch eng
          (setInitBoolean (initORTSessionHandler
            (setFrameDimension c msg.width msg.height)) true)
          (toCvCopy msg)) := by
  simp [image_callback, h0, hni, toCvCopy]

/-- Reduction of localize_callback for a nonempty primary frame against
an initialized container whose locked width matches the frame width. -/
theorem localize_callback_init_eq {E : Type} (eng : Engine E)
    (c : EPDContainer) (msg depth_msg : RosImage) (ci : CameraInfo)
    (t : Nat) (h0 : msg.height ≠ 0) (hi : isInit c = true)
    (hw : getWidth c = msg.width) :
    localize_callback eng c msg depth_msg ci t =
      (c, localize_dispatch eng c (toCvCopy msg) (toCvCopy depth_msg)
        depth_msg ci t) := by
  simp [localize_callback, h0, hi, hw, toCvCopy]

/-- Reduction of localize_callback for a nonempty first primary frame. -/
theorem localize_callback_fresh_eq {E : Type} (eng : Engine E)
    (c : EPDContainer) (msg depth_msg : RosImage) (ci : CameraInfo)
    (t : Nat) (h0 : msg.height ≠ 0) (hni : isInit c = false) :
    localize_callback eng c msg depth_msg ci t =
      (setInitBoolean (initORTSessionHandler
          (setFrameDimension c msg.width msg.height)) true,
        localize_dispatch eng
          (setInitBoolean (initORTSessionHandler
            (setFrameDimension c msg.width msg.height)) true)
          (toCvCopy msg) (toCvCopy depth_msg) depth_msg ci t) := by
  simp [localize_callback, h0, hni, toCvCopy]

/-- Claim C1: the claim reads the post-initialization mismatch test as
the negation of (width matches AND height matches), so that a change in
either single dimension is fatal.  The source instead throws only when
the stored width differs from the frame width AND the stored height
differs from the frame height (processor.hpp lines 276 and 189).  At the
failing input, a container locked at 640 by 480 receiving a 320 by 480
frame (width changed, height unchanged), both callbacks proceed to
dispatch and publish; only when both dimensions change (320 by 240) is
the fatal path taken.  This contradicts the adjacent source comment,
which says either changed dimension throws. -/
theorem dim_change_single_axis_not_fatal :
    image_callback engConst cT1 msgW
      = (cT1, CbOutcome.ok [Output.p1 { object_names := ["bottle"] }])
    ∧ (localize_callback engConst cT3 msgW depthA ciA 5).2
        ≠ CbOutcome.fatalDimChange
    ∧ image_callback engConst cT1 msgWH = (cT1, CbOutcome.fatalDimChange)
    ∧ localize_callback engConst cT3 msgWH depthA ciA 5
        = (cT3, CbOutcome.fatalDimChange) := by
  decide

/-- Claim C2 counterexample: with useCaseMode equal to 3 (localization),
the constructor still creates the single-stream subscription, so both
intake routes are active, contradicting the claim that only the
synchronized multi-stream route is active and that the two routes are
never both active. -/
theorem routes_both_active_when_localization :
    (routesActive 3).1 = true ∧ (routesActive 3).2 = true := by
  decide

/-- Claim C2 amended: the single-stream route is active for every
useCaseMode value; the synchronized multi-stream route is additionally
active exactly when useCaseMode equals 3, so in localization mode both
routes are active, and for any other value only the single-stream route
is active. -/
theorem route_selection :
    ∀ m : Nat, (routesActive m).1 = true
      ∧ ((routesActive m).2 = true ↔ m = 3) := by
  intro m
  constructor
  · rfl
  · simp [routesActive]

/-- Claim C3: for a single-stream frame that passes the empty-frame and
dimension guards, the precision switch routes to exactly one output:
tier 1 publishes only the label-list record whatever the visualize flag;
tier 2 or 3 with visualize publishes only the annotated image; tier 2 or
3 without visualize publishes only the corresponding structured
detection record. -/
theorem tier_routing {E : Type} (eng : Engine E) (c : EPDContainer)
    (msg : RosImage) (h0 : msg.height ≠ 0) (hi : isInit c = true)
    (hw : getWidth c = msg.width) :
    (c.precision_level = 1 → ∀ labels,
      eng.p1_infer (toCvCopy msg) = Except.ok labels →
      (image_callback eng c msg).2
        = CbOutcome.ok [Output.p1 { object_names := labels }])
    ∧ (c.precision_level = 2 → isVisualize c = true → ∀ rimg,
        eng.p2_infer_visualize (toCvCopy msg) = Except.ok rimg →
        (image_callback eng c msg).2
          = CbOutcome.ok [Output.visual (toImageMsg rimg)])
    ∧ (c.precision_level = 3 → isVisualize c = true → ∀ rimg,
        eng.p3_infer_visualize (toCvCopy msg) = Except.ok rimg →
        (image_callback eng c msg).2
          = CbOutcome.ok [Output.visual (toImageMsg rimg)])
    ∧ (c.precision_level = 2 → isVisualize c = false → ∀ res,
        eng.p2_infer_action (toCvCopy msg) = Except.ok res →
        (image_callback eng c msg).2
          = CbOutcome.ok [Output.p2 (formatP2Msg res)])
    ∧ (c.precision_level = 3 → isVisualize c = false → ∀ res,
        eng.p3_infer_action (toCvCopy msg) = Except.ok res →
        (image_callback eng c msg).2
          = CbOutcome.ok [Output.p3 (formatP3Msg res)]) := by
  rw [image_callback_init_eq eng c msg h0 hi hw]
  refine ⟨?_, ?_, ?_, ?_, ?_⟩
  · intro ht labels hres
    simp [image_dispatch, ht, hres]
  · intro ht hv rimg hres
    simp [image_dispatch, ht, hv, hres]
  · intro ht hv rimg hres
    simp [image_dispatch, ht, hv, hres]
  · intro ht hv res hres
    simp [image_dispatch, ht, hv, hres]
  · intro ht hv res hres
    simp [image_dispatch, ht, hv, hres]

/-- Witness for claim C3 at concrete inputs: tier 1 with the constant
engine on a 640 by 480 frame publishes only the label-list record. -/
theorem tier_routing_witness :
    (image_callback engConst cT1 msgA).2
      = CbOutcome.ok [Output.p1 { object_names := ["bottle"] }] :=
  (tier_routing engConst cT1 msgA (by decide) rfl rfl).1 rfl ["bottle"] rfl

/-- Claim C4: a frame whose height is zero is discarded on both routes:
the callback returns with no publish and the container (hence the
initialized flag and the locked dimensions) unchanged, for every engine
and container. -/
theorem empty_frame_no_effect {E : Type} (eng : Engine E)
    (c : EPDContainer) (msg depth_msg : RosImage) (ci : CameraInfo)
    (t : Nat) (h : msg.height = 0) :
    image_callback eng c msg = (c, CbOutcome.ok [])
    ∧ localize_callback eng c msg depth_msg ci t
        = (c, CbOutcome.ok []) := by
  constructor
  · simp [image_callback, h]
  · simp [localize_callback, h]

/-- Witness for claim C4 at a concrete zero-height frame. -/
theorem empty_frame_no_effect_witness :
    image_callback engConst cT1 msg0 = (cT1, CbOutcome.ok [])
    ∧ localize_callback engConst cT1 msg0 depthA ciA 5
        = (cT1, CbOutcome.ok []) :=
  empty_frame_no_effect engConst cT1 msg0 depthA ciA 5 rfl

/-- Claim C5: the box pushed by the tier 2 and tier 3 formatting loops
encodes a raw corner box (x1, y1, x2, y2) as offsets (x1, y1) with
extents (x2 - x1, y2 - y1); at every detection index below the detection
count both formatters emit exactly that encoding, and on the concrete
corners (10, 20, 50, 80) the emitted box is (10, 20, 40, 60). -/
theorem box_encoding :
    (∀ b : RawBox, mkRoi b =
      { x_offset := b.x1, y_offset := b.y1
      , width := b.x2 - b.x1, height := b.y2 - b.y1, do_rectify := false })
    ∧ mkRoi ⟨10, 20, 50, 80⟩ = ⟨10, 20, 40, 60, false⟩
    ∧ (∀ (res : EPDObjectDetectionResult) (i : Nat), i < res.data_size →
        (formatP2Msg res).bboxes[i]?
            = some (mkRoi (res.bboxes.getD i ⟨0, 0, 0, 0⟩))
        ∧ (formatP3Msg res).bboxes[i]?
            = some (mkRoi (res.bboxes.getD i ⟨0, 0, 0, 0⟩))) := by
  refine ⟨fun b => rfl, by decide, ?_⟩
  intro res i h
  constructor
  · simp [formatP2Msg, List.getElem?_map, List.getElem?_range h]
  · simp [formatP3Msg, List.getElem?_map, List.getElem?_range h]

/-- Witness for claim C5 at a concrete result: the first emitted box of
the example detection result is the conversion of (10, 20, 50, 80). -/
theorem box_encoding_witness :
    (formatP2Msg resA).bboxes[0]? = some ⟨10, 20, 40, 60, false⟩ := by
  have h := (box_encoding.2.2 resA 0 (by decide)).1
  simpa using h

/-- Claim C6: a non-visualize tier 3 invocation that passes the guards
publishes exactly one structured record whose masks, boxes, class
indices and scores arrays all have length equal to the detection count
of the inference result. -/
theorem tier3_mask_cardinality {E : Type} (eng : Engine E)
    (c : EPDContainer) (msg : RosImage) (res : EPDObjectDetectionResult)
    (h0 : msg.height ≠ 0) (hi : isInit c = true)
    (hw : getWidth c = msg.width) (ht : c.precision_level = 3)
    (hv : isVisualize c = false)
    (hres : eng.p3_infer_action (toCvCopy msg) = Except.ok res) :
    (image_callback eng c msg).2
      = CbOutcome.ok [Output.p3 (formatP3Msg res)]
    ∧ (formatP3Msg res).masks.length = res.data_size
    ∧ (formatP3Msg res).bboxes.length = res.data_size
    ∧ (formatP3Msg res).class_indices.length = res.data_size
    ∧ (formatP3Msg res).scores.length = res.data_size := by
  refine ⟨?_, ?_, ?_, ?_, ?_⟩
  · rw [image_callback_init_eq eng c msg h0 hi hw]
    simp [image_dispatch, ht, hv, hres]
  · simp [formatP3Msg]
  · simp [formatP3Msg]
  · simp [formatP3Msg]
  · simp [formatP3Msg]

/-- Witness for claim C6 at concrete inputs: tier 3 non-visualize on the
example two-detection result yields one record with all four arrays of
length two. -/
theorem tier3_mask_cardinality_witness :
    (image_callback engConst cT3 msgA).2
      = CbOutcome.ok [Output.p3 (formatP3Msg resA)]
    ∧ (formatP3Msg resA).masks.length = resA.data_size
    ∧ (formatP3Msg resA).bboxes.length = resA.data_size
    ∧ (formatP3Msg resA).class_indices.length = resA.data_size
    ∧ (formatP3Msg resA).scores.length = resA.data_size :=
  tier3_mask_cardinality engConst cT3 msgA resA (by decide) rfl rfl rfl
    rfl rfl

/-- The outgoing per-object message copies every field of a localized
object, so the copy is the identity on the modelled record. -/
theorem copyLocalizedObject_eq (o : LocalizedObject) :
    copyLocalizedObject o = o := rfl

/-- Claim C7: for a synchronized tuple passing the guards, the dispatched
operation is the localization capability, independent of the configured
precision tier (changing precision_level never changes the outcome), and
in non-visualize mode exactly one localization record is published,
carrying the frame width and height, the depth image, the calibration
record, the object count, the per-object list copied from the result,
and the elapsed processing time. -/
theorem localization_dispatch_record {E : Type} (eng : Engine E)
    (c : EPDContainer) (msg depth_msg : RosImage) (ci : CameraInfo)
    (t : Nat) (res : EPDObjectLocalizationResult) (h0 : msg.height ≠ 0)
    (hi : isInit c = true) (hw : getWidth c = msg.width)
    (hv : isVisualize c = false)
    (hres : eng.p3_infer_action_loc (toCvCopy msg) (toCvCopy depth_msg) ci
      = Except.ok res) :
    (∀ p : Nat,
      (localize_callback eng { c with precision_level := p }
          msg depth_msg ci t).2
        = (localize_callback eng c msg depth_msg ci t).2)
    ∧ (localize_callback eng c msg depth_msg ci t).2
        = CbOutcome.ok [Output.localize
            (formatLocalizationMsg (toCvCopy msg) depth_msg ci res t)]
    ∧ (formatLocalizationMsg (toCvCopy msg) depth_msg ci res t).frame_width
        = msg.width
    ∧ (formatLocalizationMsg (toCvCopy msg) depth_msg ci res t).frame_height
        = msg.height
    ∧ (formatLocalizationMsg (toCvCopy msg) depth_msg ci res t).depth_image
        = depth_msg
    ∧ (formatLocalizationMsg (toCvCopy msg) depth_msg ci res t).camera_info
        = ci
    ∧ (formatLocalizationMsg (toCvCopy msg) depth_msg ci res t).num_objects
        = res.data_size
    ∧ (formatLocalizationMsg (toCvCopy msg) depth_msg ci res t).process_time
        = t
    ∧ (formatLocalizationMsg (toCvCopy msg) depth_msg ci res
        t).objects.length = res.data_size
    ∧ (∀ i : Nat, i < res.data_size →
        (formatLocalizationMsg (toCvCopy msg) depth_msg ci res t).objects[i]?
            = some (res.objects.getD i dfltLocalizedObject)
        ∧ (formatLocalizationMsg (toCvCopy msg) depth_msg ci res
            t).roi_array[i]?
            = some (res.objects.getD i dfltLocalizedObject).roi) := by
  have hred := localize_callback_init_eq eng c msg depth_msg ci t h0 hi hw
  refine ⟨?_, ?_, rfl, rfl, rfl, rfl, rfl, rfl, ?_, ?_⟩
  · intro p
    have hi2 : isInit { c with precision_level := p } = true := hi
    have hw2 : getWidth { c with precision_level := p } = msg.width := hw
    have hred2 := localize_callback_init_eq eng
      { c with precision_level := p } msg depth_msg ci t h0 hi2 hw2
    rw [hred, hred2]
    simp [localize_dispatch, isVisualize] at hv ⊢
  · rw [hred]
    simp [localize_dispatch, hv, hres]
  · simp [formatLocalizationMsg]
  · intro i h
    constructor
    · simp [formatLocalizationMsg, List.getElem?_map,
        List.getElem?_range h, copyLocalizedObject_eq]
    · simp [formatLocalizationMsg, List.getElem?_map,
        List.getElem?_range h]

/-- Witness for claim C7 at concrete inputs: the example localization
result is published as one record with the expected fields, and the
outcome is unchanged when the precision tier is changed to 1. -/
theorem localization_dispatch_record_witness :
    (localize_callback engConst { cT3 with precision_level := 1 }
        msgA depthA ciA 5).2
      = (localize_callback engConst cT3 msgA depthA ciA 5).2
    ∧ (localize_callback engConst cT3 msgA depthA ciA 5).2
        = CbOutcome.ok [Output.localize
            (formatLocalizationMsg (toCvCopy msgA) depthA ciA locResA 5)] :=
  ⟨(localization_dispatch_record engConst cT3 msgA depthA ciA 5 locResA
      (by decide) rfl rfl rfl rfl).1 1,
    (localization_dispatch_record engConst cT3 msgA depthA ciA 5 locResA
      (by decide) rfl rfl rfl rfl).2.1⟩

/-- Claim C8: on either route the initialization protocol runs exactly
once.  On the first nonempty frame of an uninitialized container, the
callback locks the frame dimensions, performs exactly one engine
construction and sets the initialized flag; once initialized, every
later invocation returns the container unchanged (no further engine
construction, no change to the locked dimensions), whatever the frame
and outcome. -/
theorem initialization_exactly_once {E : Type} (eng : Engine E)
    (c : EPDContainer) (msg depth_msg : RosImage) (ci : CameraInfo)
    (t : Nat) :
    (isInit c = false → msg.height ≠ 0 →
      ((image_callback eng c msg).1.isInitialized = true
      ∧ (image_callback eng c msg).1.frame_width = msg.width
      ∧ (image_callback eng c msg).1.frame_height = msg.height
      ∧ (image_callback eng c msg).1.engineConstructions
          = c.engineConstructions + 1
      ∧ (localize_callback eng c msg depth_msg ci t).1.isInitialized = true
      ∧ (localize_callback eng c msg depth_msg ci t).1.frame_width
          = msg.width
      ∧ (localize_callback eng c msg depth_msg ci t).1.frame_height
          = msg.height
      ∧ (localize_callback eng c msg depth_msg ci t).1.engineConstructions
          = c.engineConstructions + 1))
    ∧ (isInit c = true →
      ((image_callback eng c msg).1 = c
      ∧ (localize_callback eng c msg depth_msg ci t).1 = c)) := by
  constructor
  · intro hni h0
    rw [image_callback_fresh_eq eng c msg h0 hni,
      localize_callback_fresh_eq eng c msg depth_msg ci t h0 hni]
    simp [setInitBoolean, initORTSessionHandler, setFrameDimension]
  · intro hi
    by_cases h0 : msg.height = 0
    · simp [image_callback, localize_callback, h0]
    · constructor
      · simp only [image_callback, if_neg h0, hi]
        rw [if_neg (show ¬(true = false) by simp)]
        split <;> rfl
      · simp only [localize_callback, if_neg h0, hi]
        rw [if_neg (show ¬(true = false) by simp)]
        split <;> rfl

/-- Witness for claim C8 at concrete inputs: a fresh container processed
on a 640 by 480 frame ends initialized at those dimensions with one
engine construction, and an initialized container is returned unchanged. -/
theorem initialization_exactly_once_witness :
    ((image_callback engConst cFresh msgA).1.isInitialized = true
      ∧ (image_callback engConst cFresh msgA).1.frame_width = msgA.width
      ∧ (image_callback engConst cFresh msgA).1.frame_height = msgA.height
      ∧ (image_callback engConst cFresh msgA).1.engineConstructions
          = cFresh.engineConstructions + 1
      ∧ (localize_callback engConst cFresh msgA depthA ciA
          5).1.isInitialized = true
      ∧ (localize_callback engConst cFresh msgA depthA ciA 5).1.frame_width
          = msgA.width
      ∧ (localize_callback engConst cFresh msgA depthA ciA
          5).1.frame_height = msgA.height
      ∧ (localize_callback engConst cFresh msgA depthA ciA
          5).1.engineConstructions = cFresh.engineConstructions + 1)
    ∧ ((image_callback engConst cT1 msgA).1 = cT1
      ∧ (localize_callback engConst cT1 msgA depthA ciA 5).1 = cT1) :=
  ⟨(initialization_exactly_once engConst cFresh msgA depthA ciA 5).1 rfl
      (by decide),
    (initialization_exactly_once engConst cT1 msgA depthA ciA 5).2 rfl⟩

/-- Claim C9: on either route, when the invoked inference capability
fails, the failure surfaces from the callback as the very same error
value (never caught, wrapped or reinterpreted), and the outcome carries
no published record or image; this holds for every tier and mode
combination that passes the guards. -/
theorem engine_error_propagated {E : Type} (eng : Engine E)
    (c : EPDContainer) (msg depth_msg : RosImage) (ci : CameraInfo)
    (t : Nat) (e : E) (h0 : msg.height ≠ 0) (hi : isInit c = true)
    (hw : getWidth c = msg.width) :
    (c.precision_level = 1 →
      eng.p1_infer (toCvCopy msg) = Except.error e →
      (image_callback eng c msg).2 = CbOutcome.engineError e)
    ∧ (c.precision_level = 2 → isVisualize c = true →
        eng.p2_infer_visualize (toCvCopy msg) = Except.error e →
        (image_callback eng c msg).2 = CbOutcome.engineError e)
    ∧ (c.precision_level = 2 → isVisualize c = false →
        eng.p2_infer_action (toCvCopy msg) = Except.error e →
        (image_callback eng c msg).2 = CbOutcome.engineError e)
    ∧ (c.precision_level = 3 → isVisualize c = true →
        eng.p3_infer_visualize (toCvCopy msg) = Except.error e →
        (image_callback eng c msg).2 = CbOutcome.engineError e)
    ∧ (c.precision_level = 3 → isVisualize c = false →
        eng.p3_infer_action (toCvCopy msg) = Except.error e →
        (image_callback eng c msg).2 = CbOutcome.engineError e)
    ∧ (isVisualize c = true →
        eng.p3_infer_visualize_loc (toCvCopy msg) (toCvCopy depth_msg) ci
          = Except.error e →
        (localize_callback eng c msg depth_msg ci t).2
          = CbOutcome.engineError e)
    ∧ (isVisualize c = false →
        eng.p3_infer_action_loc (toCvCopy msg) (toCvCopy depth_msg) ci
          = Except.error e →
        (localize_callback eng c msg depth_msg ci t).2
          = CbOutcome.engineError e)
    ∧ (∀ outs : List Output,
        CbOutcome.engineError e ≠ (CbOutcome.ok outs : CbOutcome E)) := by
  have hred := image_callback_init_eq eng c msg h0 hi hw
  have hredL := localize_callback_init_eq eng c msg depth_msg ci t h0 hi hw
  refine ⟨?_, ?_, ?_, ?_, ?_, ?_, ?_, ?_⟩
  · intro ht hres
    rw [hred]
    simp [image_dispatch, ht, hres]
  · intro ht hv hres
    rw [hred]
    simp [image_dispatch, ht, hv, hres]
  · intro ht hv hres
    rw [hred]
    simp [image_dispatch, ht, hv, hres]
  · intro ht hv hres
    rw [hred]
    simp [image_dispatch, ht, hv, hres]
  · intro ht hv hres
    rw [hred]
    simp [image_dispatch, ht, hv, hres]
  · intro hv hres
    rw [hredL]
    simp [localize_dispatch, hv, hres]
  · intro hv hres
    rw [hredL]
    simp [localize_dispatch, hv, hres]
  · intro outs
    exact fun hcon => CbOutcome.noConfusion hcon

/-- Witness for claim C9 at concrete inputs: the failing engine makes
the tier 1 callback and the localization callback surface the error
value 42. -/
theorem engine_error_propagated_witness :
    (image_callback engFail cT1 msgA).2 = CbOutcome.engineError 42
    ∧ (localize_callback engFail cT3 msgA depthA ciA 5).2
        = CbOutcome.engineError 42 :=
  ⟨(engine_error_propagated engFail cT1 msgA depthA ciA 5 42 (by decide)
      rfl rfl).1 rfl rfl,
    (engine_error_propagated engFail cT3 msgA depthA ciA 5 42 (by decide)
      rfl rfl).2.2.2.2.2.2.1 rfl rfl⟩

/-- Claim C10: a nonempty single-stream frame processed while the
precision level is outside one, two and three still runs the
initialization (or passes the dimension check), but the switch matches
no case: no inference is invoked, nothing is published, and the callback
returns normally with an empty publish list. -/
theorem unknown_tier_silent {E : Type} (eng : Engine E)
    (c : EPDContainer) (msg : RosImage) (h0 : msg.height ≠ 0)
    (h1 : c.precision_level ≠ 1) (h2 : c.precision_level ≠ 2)
    (h3 : c.precision_level ≠ 3) :
    (isInit c = true → getWidth c = msg.width →
      image_callback eng c msg = (c, CbOutcome.ok []))
    ∧ (isInit c = false →
      image_callback eng c msg =
        (setInitBoolean (initORTSessionHandler
          (setFrameDimension c msg.width msg.height)) true,
          CbOutcome.ok [])) := by
  constructor
  · intro hi hw
    rw [image_callback_init_eq eng c msg h0 hi hw]
    simp [image_dispatch, h1, h2, h3]
  · intro hni
    rw [image_callback_fresh_eq eng c msg h0 hni]
    simp [image_dispatch, setInitBoolean, initORTSessionHandler,
      setFrameDimension, h1, h2, h3]

/-- Witness for claim C10 at concrete inputs: tier 7 on an initialized
container and on a fresh container publishes nothing. -/
theorem unknown_tier_silent_witness :
    image_callback engConst cT7 msgA = (cT7, CbOutcome.ok [])
    ∧ image_callback engConst { cFresh with precision_level := 7 } msgA =
        (setInitBoolean (initORTSessionHandler
          (setFrameDimension { cFresh with precision_level := 7 }
            msgA.width msgA.height)) true,
          CbOutcome.ok []) :=
  ⟨(unknown_tier_silent engConst cT7 msgA (by decide) (by decide)
      (by decide) (by decide)).1 rfl rfl,
    (unknown_tier_silent engConst { cFresh with precision_level := 7 }
      msgA (by decide) (by decide) (by decide) (by decide)).2 rfl⟩
